import Mathlib

/-!
A shallow embedding of `src/mainloop.c` (OpenConnect VPN client session
loop) and proofs about its packet queue, keepalive/DPD scheduler and
top-level main loop.

Conventions of the embedding:
* C `time_t` timestamps and `int` millisecond timeouts are modelled as
  `Int` (no overflow occurs in the situations considered; the C code's
  `*timeout = (due - now) * 1000` assignment only ever lowers `*timeout`,
  so it stays within `int` range whenever the input did).
* C integer division (`ka->dpd / 2`, truncation toward zero) is `Int.tdiv`.
* The `struct pkt` linked list threaded through `next` pointers is a
  `List`; `queue_packet`'s walk to the end of the list is list append.
* `malloc` is external: `queue_new_packet` takes the allocation outcome
  as an explicit `alloc_ok` argument.
-/

namespace Mainloop

/-- The `KA_*` return values of `keepalive_action` / `ka_stalled_action`
(from `openconnect-internal.h`). -/
inductive KAAction where
  | KA_NONE
  | KA_DPD
  | KA_DPD_DEAD
  | KA_KEEPALIVE
  | KA_REKEY
deriving DecidableEq

/-- `struct keepalive_info`: configured intervals (`0` = disabled) and
last-event timestamps, as used by `mainloop.c`. `last_dpd` is the
timestamp of the last DPD probe (the spec's `last_dpd_probe`). -/
structure keepalive_info where
  dpd : Int
  keepalive : Int
  rekey : Int
  last_rekey : Int
  last_tx : Int
  last_rx : Int
  last_dpd : Int
deriving DecidableEq

/-- The timeout-tightening statement that recurs in `mainloop.c`:
`if (*timeout > (due - now) * 1000) *timeout = (due - now) * 1000;`. -/
def tighten (timeout due now : Int) : Int :=
  if timeout > (due - now) * 1000 then (due - now) * 1000 else timeout

/-- The effective DPD probe deadline of `keepalive_action`
(lines 191-201): `due = last_rx + dpd`, moved to `last_dpd + dpd/2`
when a probe is already outstanding (`last_dpd > last_rx`). -/
def dpdDue (ka : keepalive_info) : Int :=
  if ka.last_dpd > ka.last_rx then ka.last_dpd + Int.tdiv ka.dpd 2
  else ka.last_rx + ka.dpd

/-- `keepalive_action` (mainloop.c lines 175-227). Returns the `KA_*`
action, the updated `keepalive_info` (only `last_dpd` is ever written,
when a probe is issued) and the updated `*timeout`. The C early returns
are flattened into nested `if`s: a guard `ka.dpd ≠ 0 ∧ …` corresponds
to a conditional return inside the C `if (ka->dpd) { … }` block. -/
def keepalive_action (ka : keepalive_info) (now timeout : Int) :
    KAAction × keepalive_info × Int :=
  if ka.rekey ≠ 0 ∧ now ≥ ka.last_rekey + ka.rekey then
    (KAAction.KA_REKEY, ka, timeout)
  else
    let t1 := if ka.rekey ≠ 0 then tighten timeout (ka.last_rekey + ka.rekey) now
              else timeout
    if ka.dpd ≠ 0 ∧ now > ka.last_rx + 2 * ka.dpd then
      (KAAction.KA_DPD_DEAD, ka, t1)
    else if ka.dpd ≠ 0 ∧ now ≥ dpdDue ka then
      (KAAction.KA_DPD, { ka with last_dpd := now }, t1)
    else
      let t2 := if ka.dpd ≠ 0 then tighten t1 (dpdDue ka) now else t1
      if ka.keepalive ≠ 0 ∧ now ≥ ka.last_tx + ka.keepalive then
        (KAAction.KA_KEEPALIVE, ka, t2)
      else
        let t3 := if ka.keepalive ≠ 0 then tighten t2 (ka.last_tx + ka.keepalive) now
                  else t2
        (KAAction.KA_NONE, ka, t3)

/-- `ka_stalled_action` (mainloop.c lines 146-172): the degraded-mode
check used when the socket is unwritable — rekey block, then only the
hard DPD deadline `last_rx + 2*dpd`. -/
def ka_stalled_action (ka : keepalive_info) (now timeout : Int) :
    KAAction × Int :=
  if ka.rekey ≠ 0 ∧ now ≥ ka.last_rekey + ka.rekey then
    (KAAction.KA_REKEY, timeout)
  else
    let t1 := if ka.rekey ≠ 0 then tighten timeout (ka.last_rekey + ka.rekey) now
              else timeout
    if ka.dpd = 0 then (KAAction.KA_NONE, t1)
    else if now > ka.last_rx + 2 * ka.dpd then (KAAction.KA_DPD_DEAD, t1)
    else (KAAction.KA_NONE, tighten t1 (ka.last_rx + 2 * ka.dpd) now)

/-- `struct pkt` as queued: its `len` field and the `len` bytes of its
`data` buffer. -/
structure pkt where
  len : Nat
  data : List Nat
deriving DecidableEq

/-- `queue_packet` (lines 26-33): walks `q` to the final `next` pointer
and hangs `new` there with `new->next = NULL`, i.e. appends to the tail. -/
def queue_packet (q : List pkt) (new : pkt) : List pkt :=
  q ++ [new]

/-- `queue_new_packet` (lines 35-46). `malloc` is external, so the
allocation outcome is the explicit argument `alloc_ok`: on failure the
function returns `-ENOMEM` (`-12`) and the queue is untouched; on
success it builds a packet with `new->len = len` and `len` bytes copied
from `buf`, appends it via `queue_packet`, and returns `0`. -/
def queue_new_packet (alloc_ok : Bool) (q : List pkt) (buf : List Nat)
    (len : Nat) : Int × List pkt :=
  if alloc_ok then (0, queue_packet q { len := len, data := buf.take len })
  else (-12, q)

/-- How a call to `openconnect_mainloop` ended: `paused` is the
`got_pause_cmd` return at line 120, `stopped` is any exit of the
`while (!vpninfo->quit_reason)` loop followed by the final return at
line 141. -/
inductive ExitKind where
  | paused
  | stopped
deriving DecidableEq

/-- The externally determined events of one iteration of the main loop
(lines 76-135). The drivers (`dtls_mainloop`, `cstp_mainloop`,
`tun_mainloop`, `poll_cmd_fd`) are outside `mainloop.c`, so each
iteration's driver results and `quit_reason` / command-flag outcomes are
oracle data:
* `dtls_active`: whether `vpninfo->dtls_ssl` is non-NULL at line 86, so
  that `ret = dtls_mainloop(...)` runs;
* `dtls_ret` / `cstp_ret`: those drivers' return values;
* `quit_in_dtls`: `vpninfo->quit_reason` is set when tested at line 91;
* `quit_in_cstp` / `quit_in_tun`: it is set at lines 95 / 102;
* `got_cancel` / `got_pause`: the command flags seen at lines 106 / 111. -/
structure IterEnv where
  dtls_active : Bool
  dtls_ret : Int
  quit_in_dtls : Bool
  cstp_ret : Int
  quit_in_cstp : Bool
  quit_in_tun : Bool
  got_cancel : Bool
  got_pause : Bool
deriving DecidableEq

/-- The final statement of `openconnect_mainloop`,
`return ret < 0 ? ret : -EIO;` (line 141); `-5` is `-EIO`. -/
def stoppedRet (ret : Int) : Int :=
  if ret < 0 then ret else -5

/-- The `while (!vpninfo->quit_reason)` loop of `openconnect_mainloop`
(lines 70-136) followed by the final return (line 141), with `ret`
threaded exactly as in the C code: `ret` is overwritten by
`dtls_mainloop` (when the DTLS session is active), by `cstp_mainloop`,
and set to `-EINTR` (`-4`) on cancel; every `break` on `quit_reason`
falls through to `return ret < 0 ? ret : -EIO`, while `got_pause_cmd`
returns `0` directly. `none` means the supplied iterations ran out with
the loop still running; the `select` wait and `did_work` bookkeeping
(lines 123-135) do not affect state visible here. -/
def runMainloop (ret : Int) : List IterEnv → Option (ExitKind × Int)
  | [] => none
  | e :: rest =>
    let ret1 := if e.dtls_active then e.dtls_ret else ret
    if e.quit_in_dtls then some (ExitKind.stopped, stoppedRet ret1)
    else
      let ret2 := e.cstp_ret
      if e.quit_in_cstp then some (ExitKind.stopped, stoppedRet ret2)
      else if e.quit_in_tun then some (ExitKind.stopped, stoppedRet ret2)
      else if e.got_cancel then some (ExitKind.stopped, stoppedRet (-4))
      else if e.got_pause then some (ExitKind.paused, 0)
      else runMainloop ret2 rest

/-- `openconnect_mainloop` (lines 55-142): `ret` starts at `0`;
`quit0` is whether `vpninfo->quit_reason` is already set on entry (the
loop body then never runs and the function falls through to line 141). -/
def openconnect_mainloop (quit0 : Bool) (envs : List IterEnv) :
    Option (ExitKind × Int) :=
  if quit0 then some (ExitKind.stopped, stoppedRet 0)
  else runMainloop 0 envs

/-- The two externally visible DTLS actions of the loop prologue
(lines 76-85): `tryHandshake` is the `dtls_try_handshake` call,
`connectAttempt` is the `connect_dtls_socket` call. -/
inductive DtlsEvent where
  | tryHandshake
  | connectAttempt
deriving DecidableEq

/-- The fields of `struct openconnect_info` read by the DTLS prologue:
`dtls_ssl` (active DTLS session), `new_dtls_ssl` (handshake in flight),
`new_dtls_started`/`dtls_attempt_period` (retry clock), and whether
`ssl_fd != -1` (reliable transport connected). -/
structure DtlsState where
  dtls_ssl : Bool
  new_dtls_ssl : Bool
  new_dtls_started : Int
  dtls_attempt_period : Int
  ssl_fd_ok : Bool
deriving DecidableEq

/-- The DTLS prologue of each loop iteration (lines 76-85), recording
the order of the externally visible calls. `dtls_try_handshake` and
`connect_dtls_socket` live outside `mainloop.c`; their effect on the
state is the oracle functions `tryHS` and `connect`. Note the C code
runs `dtls_try_handshake` first (line 77) and the fresh-attempt test at
line 80 then reads the flags as updated by it. -/
def dtlsPrologue (tryHS conn : DtlsState → DtlsState) (s : DtlsState)
    (now : Int) : List DtlsEvent × DtlsState :=
  let p1 := if s.new_dtls_ssl then ([DtlsEvent.tryHandshake], tryHS s)
            else ([], s)
  if p1.2.dtls_attempt_period ≠ 0 ∧ p1.2.dtls_ssl = false ∧
      p1.2.new_dtls_ssl = false ∧
      p1.2.new_dtls_started + p1.2.dtls_attempt_period < now ∧
      p1.2.ssl_fd_ok then
    (p1.1 ++ [DtlsEvent.connectAttempt], conn p1.2)
  else p1

/-- The ordering property claimed by the spec's per-iteration protocol:
whenever both DTLS prologue actions occur in one iteration, the fresh
connection attempt (its step 1) comes before the handshake advance
(its step 2). -/
def stepOneFirst (evs : List DtlsEvent) : Prop :=
  DtlsEvent.tryHandshake ∈ evs → DtlsEvent.connectAttempt ∈ evs →
    evs.indexOf DtlsEvent.connectAttempt < evs.indexOf DtlsEvent.tryHandshake

/-- One enqueue call on the Packet Queue: `queue_packet` with an existing
packet, or `queue_new_packet` with a buffer, a length and the allocation
outcome of its internal `malloc`. -/
inductive QueueOp where
  | qp (p : pkt)
  | qnp (alloc_ok : Bool) (buf : List Nat) (len : Nat)
deriving DecidableEq

/-- Run a sequence of enqueue calls against a queue. -/
def runQueueOps (q : List pkt) : List QueueOp → List pkt
  | [] => q
  | QueueOp.qp p :: rest => runQueueOps (queue_packet q p) rest
  | QueueOp.qnp ok buf len :: rest =>
      runQueueOps (queue_new_packet ok q buf len).2 rest

/-- The packet a single enqueue call adds (`none` for a failed
`queue_new_packet`, which adds nothing). -/
def opPkt : QueueOp → Option pkt
  | QueueOp.qp p => some p
  | QueueOp.qnp ok buf len =>
      if ok then some { len := len, data := buf.take len } else none

theorem runQueueOps_eq (ops : List QueueOp) :
    ∀ q : List pkt, runQueueOps q ops = q ++ ops.filterMap opPkt := by
  induction ops with
  | nil => intro q; simp [runQueueOps]
  | cons op rest ih =>
    intro q
    cases op with
    | qp p =>
      simp [runQueueOps, queue_packet, ih, opPkt]
    | qnp ok buf len =>
      cases ok <;>
        simp [runQueueOps, queue_new_packet, queue_packet, ih, opPkt]

/-- C7: for every sequence of `queue_packet` / `queue_new_packet` calls on
an initially empty queue, walking the queue from the head yields exactly
the successfully enqueued packets in arrival order (FIFO), each
`queue_new_packet` packet holding exactly the `len` bytes copied from its
buffer (as recorded by `opPkt`). -/
theorem queue_fifo (ops : List QueueOp) :
    runQueueOps [] ops = ops.filterMap opPkt := by
  simpa using runQueueOps_eq ops []

/-- C8: `queue_new_packet` on allocation failure returns `-ENOMEM` and
leaves the queue unmodified; on success it returns `0` and appends
exactly one packet of the given length (holding the `len` bytes copied
from `buf`) to the tail, with no other change. -/
theorem queue_new_packet_spec (q : List pkt) (buf : List Nat) (len : Nat)
    (h : len ≤ buf.length) :
    queue_new_packet false q buf len = (-12, q) ∧
    queue_new_packet true q buf len
      = (0, q ++ [{ len := len, data := buf.take len }]) ∧
    (queue_new_packet true q buf len).2.length = q.length + 1 ∧
    ({ len := len, data := buf.take len } : pkt).data.length = len := by
  refine ⟨rfl, rfl, by simp [queue_new_packet, queue_packet], ?_⟩
  simp only [List.length_take]
  omega

/-- C8 witness: the specification evaluated on a concrete queue, buffer
and length. -/
theorem queue_new_packet_spec_witness :
    (3 : Nat) ≤ ([1, 2, 3, 4] : List Nat).length ∧
    (queue_new_packet false [⟨1, [9]⟩] [1, 2, 3, 4] 3 = (-12, [⟨1, [9]⟩]) ∧
     queue_new_packet true [⟨1, [9]⟩] [1, 2, 3, 4] 3
       = (0, [⟨1, [9]⟩] ++ [{ len := 3, data := ([1, 2, 3, 4] : List Nat).take 3 }]) ∧
     (queue_new_packet true [⟨1, [9]⟩] [1, 2, 3, 4] 3).2.length
       = [(⟨1, [9]⟩ : pkt)].length + 1 ∧
     ({ len := 3, data := ([1, 2, 3, 4] : List Nat).take 3 } : pkt).data.length = 3) :=
  ⟨by decide, queue_new_packet_spec [⟨1, [9]⟩] [1, 2, 3, 4] 3 (by decide)⟩

/-- C1 counterexample: a state whose rekey deadline is also due. With
`rekey = 1`, `last_rekey = 0`, `dpd = 1`, `last_rx = 0` at `now = 10`
the DPD hard deadline is long past (`10 > 0 + 2*1`), yet
`keepalive_action` returns `KA_REKEY` (the rekey early return at line
182 runs first), not `KA_DPD_DEAD`. -/
theorem dpd_dead_fires_counterexample :
    (⟨1, 0, 1, 0, 0, 0, 0⟩ : keepalive_info).dpd ≠ 0 ∧
    (10 : Int) > (⟨1, 0, 1, 0, 0, 0, 0⟩ : keepalive_info).last_rx
      + 2 * (⟨1, 0, 1, 0, 0, 0, 0⟩ : keepalive_info).dpd ∧
    (keepalive_action ⟨1, 0, 1, 0, 0, 0, 0⟩ 10 1000000).1
      ≠ KAAction.KA_DPD_DEAD := by
  decide

/-- C1 (amended): with a non-zero `dpd` and `now > last_rx + 2 * dpd`, a
normal check returns `KA_DPD_DEAD` — provided the rekey deadline is not
itself due (rekey disabled, or `now < last_rekey + rekey`), since the
rekey check runs first and returns `KA_REKEY` in that case. -/
theorem dpd_dead_fires (ka : keepalive_info) (now timeout : Int)
    (hdpd : ka.dpd ≠ 0) (hover : now > ka.last_rx + 2 * ka.dpd)
    (hrekey : ka.rekey = 0 ∨ now < ka.last_rekey + ka.rekey) :
    (keepalive_action ka now timeout).1 = KAAction.KA_DPD_DEAD := by
  have h1 : ¬ (ka.rekey ≠ 0 ∧ now ≥ ka.last_rekey + ka.rekey) := by
    rintro ⟨hne, hge⟩
    rcases hrekey with h | h
    · exact hne h
    · omega
  simp [keepalive_action, h1, hdpd, hover]

/-- C1 witness: the amended theorem applied at a concrete input
(`dpd = 1`, rekey disabled, `now = 10`). -/
theorem dpd_dead_fires_witness :
    ((⟨1, 0, 0, 0, 0, 0, 0⟩ : keepalive_info).dpd ≠ 0 ∧
     (10 : Int) > (⟨1, 0, 0, 0, 0, 0, 0⟩ : keepalive_info).last_rx
       + 2 * (⟨1, 0, 0, 0, 0, 0, 0⟩ : keepalive_info).dpd ∧
     ((⟨1, 0, 0, 0, 0, 0, 0⟩ : keepalive_info).rekey = 0 ∨
       (10 : Int) < (⟨1, 0, 0, 0, 0, 0, 0⟩ : keepalive_info).last_rekey
         + (⟨1, 0, 0, 0, 0, 0, 0⟩ : keepalive_info).rekey)) ∧
    (keepalive_action ⟨1, 0, 0, 0, 0, 0, 0⟩ 10 100).1
      = KAAction.KA_DPD_DEAD :=
  ⟨⟨by decide, by decide, by decide⟩,
   dpd_dead_fires ⟨1, 0, 0, 0, 0, 0, 0⟩ 10 100 (by decide) (by decide)
     (by decide)⟩

/-- C2: over any sequence of normal checks in which `dpd` is a positive
interval and `last_rx` has been refreshed within the last `dpd` seconds
at every check (`now - last_rx ≤ dpd`), no check returns `KA_DPD_DEAD`:
the dead-peer branch needs `now > last_rx + 2 * dpd`. -/
theorem no_false_dpd_dead (checks : List (keepalive_info × Int × Int))
    (h : ∀ c ∈ checks, 0 < c.1.dpd ∧ c.2.1 - c.1.last_rx ≤ c.1.dpd) :
    ∀ c ∈ checks,
      (keepalive_action c.1 c.2.1 c.2.2).1 ≠ KAAction.KA_DPD_DEAD := by
  intro c hc
  obtain ⟨hdpd, hrx⟩ := h c hc
  obtain ⟨ka, now, t⟩ := c
  simp only at hdpd hrx ⊢
  have hnd : ¬ (ka.dpd ≠ 0 ∧ now > ka.last_rx + 2 * ka.dpd) := by
    rintro ⟨-, hgt⟩
    omega
  unfold keepalive_action
  split_ifs <;> simp_all

/-- C2 witness: a concrete two-check sequence satisfying the refresh
hypothesis, on which no check is `KA_DPD_DEAD`. -/
theorem no_false_dpd_dead_witness :
    (∀ c ∈ ([(⟨10, 0, 0, 0, 0, 0, 0⟩, 5, 1000),
             (⟨10, 0, 0, 0, 20, 20, 0⟩, 30, 1000)] :
        List (keepalive_info × Int × Int)),
      0 < c.1.dpd ∧ c.2.1 - c.1.last_rx ≤ c.1.dpd) ∧
    (∀ c ∈ ([(⟨10, 0, 0, 0, 0, 0, 0⟩, 5, 1000),
             (⟨10, 0, 0, 0, 20, 20, 0⟩, 30, 1000)] :
        List (keepalive_info × Int × Int)),
      (keepalive_action c.1 c.2.1 c.2.2).1 ≠ KAAction.KA_DPD_DEAD) :=
  ⟨by decide,
   no_false_dpd_dead
     [(⟨10, 0, 0, 0, 0, 0, 0⟩, 5, 1000), (⟨10, 0, 0, 0, 20, 20, 0⟩, 30, 1000)]
     (by decide)⟩

/-- C4: whenever the rekey deadline is due (`rekey ≠ 0`,
`now ≥ last_rekey + rekey`) — in particular also when the DPD probe
deadline is simultaneously due — `keepalive_action` returns `KA_REKEY`,
not `KA_DPD`: the rekey check runs first. -/
theorem rekey_priority (ka : keepalive_info) (now timeout : Int)
    (hrk : ka.rekey ≠ 0) (hdue : now ≥ ka.last_rekey + ka.rekey)
    (_hdpd : ka.dpd ≠ 0) (_hprobe : now ≥ dpdDue ka) :
    (keepalive_action ka now timeout).1 = KAAction.KA_REKEY := by
  simp [keepalive_action, hrk, hdue]

/-- C4 witness: rekey and DPD probe simultaneously due at a concrete
input; the check returns `KA_REKEY`. -/
theorem rekey_priority_witness :
    ((⟨10, 0, 30, 0, 0, 0, 0⟩ : keepalive_info).rekey ≠ 0 ∧
     (30 : Int) ≥ (⟨10, 0, 30, 0, 0, 0, 0⟩ : keepalive_info).last_rekey
       + (⟨10, 0, 30, 0, 0, 0, 0⟩ : keepalive_info).rekey ∧
     (⟨10, 0, 30, 0, 0, 0, 0⟩ : keepalive_info).dpd ≠ 0 ∧
     (30 : Int) ≥ dpdDue ⟨10, 0, 30, 0, 0, 0, 0⟩) ∧
    (keepalive_action ⟨10, 0, 30, 0, 0, 0, 0⟩ 30 1000).1
      = KAAction.KA_REKEY :=
  ⟨⟨by decide, by decide, by decide, by decide⟩,
   rekey_priority ⟨10, 0, 30, 0, 0, 0, 0⟩ 30 1000 (by decide) (by decide)
     (by decide) (by decide)⟩

theorem keepalive_action_dpd_iff (ka : keepalive_info) (now t : Int) :
    (keepalive_action ka now t).1 = KAAction.KA_DPD ↔
      ¬ (ka.rekey ≠ 0 ∧ now ≥ ka.last_rekey + ka.rekey) ∧
      ¬ (ka.dpd ≠ 0 ∧ now > ka.last_rx + 2 * ka.dpd) ∧
      (ka.dpd ≠ 0 ∧ now ≥ dpdDue ka) := by
  unfold keepalive_action
  split_ifs <;> simp_all

theorem keepalive_action_last_dpd (ka : keepalive_info) (now t : Int) :
    ((keepalive_action ka now t).1 = KAAction.KA_DPD →
      (keepalive_action ka now t).2.1 = { ka with last_dpd := now }) ∧
    ((keepalive_action ka now t).1 ≠ KAAction.KA_DPD →
      (keepalive_action ka now t).2.1 = ka) := by
  unfold keepalive_action
  split_ifs <;> simp_all

/-- A probe issued at `now` implies `now` is past the effective deadline,
and in particular strictly past `last_rx` (positive `dpd`). -/
theorem probe_after_rx (ka : keepalive_info) (now t : Int)
    (hdpd : 0 < ka.dpd)
    (h : (keepalive_action ka now t).1 = KAAction.KA_DPD) :
    ka.last_rx < now ∧ ka.last_dpd ≤ now := by
  obtain ⟨-, -, -, hge⟩ := (keepalive_action_dpd_iff ka now t).mp h
  have htd : 0 ≤ Int.tdiv ka.dpd 2 := Int.tdiv_nonneg (le_of_lt hdpd) (by norm_num)
  unfold dpdDue at hge
  split_ifs at hge <;> omega

/-- C10: the anti-flood adjustment of the DPD probe deadline is keyed on
`last_dpd > last_rx` strictly. At a tie (`last_dpd = last_rx`, a probe
stamped at the same time as the last receive) no suppression applies and
the probe fires exactly when `now ≥ last_rx + dpd`; with `last_dpd`
strictly greater, it fires exactly when `now ≥ last_dpd + dpd/2`.
(Rekey disabled and the hard DPD deadline not yet passed, to isolate the
probe branch.) -/
theorem dpd_tie_break (ka : keepalive_info) (now timeout : Int)
    (hrk : ka.rekey = 0) (hdpd : ka.dpd ≠ 0)
    (hnod : ¬ now > ka.last_rx + 2 * ka.dpd) :
    (ka.last_dpd = ka.last_rx →
      ((keepalive_action ka now timeout).1 = KAAction.KA_DPD ↔
        now ≥ ka.last_rx + ka.dpd)) ∧
    (ka.last_dpd > ka.last_rx →
      ((keepalive_action ka now timeout).1 = KAAction.KA_DPD ↔
        now ≥ ka.last_dpd + Int.tdiv ka.dpd 2)) := by
  constructor <;> intro hcmp <;>
    rw [keepalive_action_dpd_iff] <;> unfold dpdDue <;>
    split_ifs <;> simp_all

/-- C10 witness: tie at `last_dpd = last_rx = 0`, `dpd = 10`; both
characterizations evaluated there. -/
theorem dpd_tie_break_witness :
    ((⟨10, 0, 0, 0, 0, 0, 0⟩ : keepalive_info).rekey = 0 ∧
     (⟨10, 0, 0, 0, 0, 0, 0⟩ : keepalive_info).dpd ≠ 0 ∧
     ¬ (10 : Int) > (⟨10, 0, 0, 0, 0, 0, 0⟩ : keepalive_info).last_rx
        + 2 * (⟨10, 0, 0, 0, 0, 0, 0⟩ : keepalive_info).dpd) ∧
    (((⟨10, 0, 0, 0, 0, 0, 0⟩ : keepalive_info).last_dpd
        = (⟨10, 0, 0, 0, 0, 0, 0⟩ : keepalive_info).last_rx →
      ((keepalive_action ⟨10, 0, 0, 0, 0, 0, 0⟩ 10 1000).1 = KAAction.KA_DPD ↔
        (10 : Int) ≥ (⟨10, 0, 0, 0, 0, 0, 0⟩ : keepalive_info).last_rx
          + (⟨10, 0, 0, 0, 0, 0, 0⟩ : keepalive_info).dpd)) ∧
     ((⟨10, 0, 0, 0, 0, 0, 0⟩ : keepalive_info).last_dpd
        > (⟨10, 0, 0, 0, 0, 0, 0⟩ : keepalive_info).last_rx →
      ((keepalive_action ⟨10, 0, 0, 0, 0, 0, 0⟩ 10 1000).1 = KAAction.KA_DPD ↔
        (10 : Int) ≥ (⟨10, 0, 0, 0, 0, 0, 0⟩ : keepalive_info).last_dpd
          + Int.tdiv (⟨10, 0, 0, 0, 0, 0, 0⟩ : keepalive_info).dpd 2))) :=
  ⟨⟨by decide, by decide, by decide⟩,
   dpd_tie_break ⟨10, 0, 0, 0, 0, 0, 0⟩ 10 1000 (by decide) (by decide)
     (by decide)⟩

/-- C3: `last_dpd` (the spec's `last_dpd_probe`) is set to the current
time exactly when `KA_DPD` is returned, and only ever advances forward;
and two consecutive normal checks with no intervening receive can both
return `KA_DPD` only when at least `dpd/2` apart: the second probe time
is at least `now1 + dpd/2`. -/
theorem no_probe_flood (ka : keepalive_info) (now1 t1 now2 t2 : Int)
    (hdpd : 0 < ka.dpd) :
    ((keepalive_action ka now1 t1).2.1.last_dpd
       = if (keepalive_action ka now1 t1).1 = KAAction.KA_DPD then now1
         else ka.last_dpd) ∧
    ka.last_dpd ≤ (keepalive_action ka now1 t1).2.1.last_dpd ∧
    ((keepalive_action ka now1 t1).1 = KAAction.KA_DPD →
      (keepalive_action (keepalive_action ka now1 t1).2.1 now2 t2).1
        = KAAction.KA_DPD →
      now1 + Int.tdiv ka.dpd 2 ≤ now2) := by
  by_cases h1 : (keepalive_action ka now1 t1).1 = KAAction.KA_DPD
  · have hst := (keepalive_action_last_dpd ka now1 t1).1 h1
    have hrx := probe_after_rx ka now1 t1 hdpd h1
    refine ⟨by rw [if_pos h1, hst], by rw [hst]; exact hrx.2, ?_⟩
    intro _ h2
    obtain ⟨-, -, -, hge2⟩ :=
      (keepalive_action_dpd_iff (keepalive_action ka now1 t1).2.1 now2 t2).mp h2
    rw [hst] at hge2
    unfold dpdDue at hge2
    simp only at hge2
    rw [if_pos hrx.1] at hge2
    exact hge2
  · have hst := (keepalive_action_last_dpd ka now1 t1).2 h1
    exact ⟨by rw [if_neg h1, hst], by rw [hst], fun h => absurd h h1⟩

/-- C3 witness: `dpd = 10`, a probe fires at `now1 = 10`; the conclusion
evaluated there with a second check at `now2 = 100`. -/
theorem no_probe_flood_witness :
    (0 : Int) < (⟨10, 0, 0, 0, 0, 0, 0⟩ : keepalive_info).dpd ∧
    (((keepalive_action ⟨10, 0, 0, 0, 0, 0, 0⟩ 10 0).2.1.last_dpd
       = if (keepalive_action ⟨10, 0, 0, 0, 0, 0, 0⟩ 10 0).1 = KAAction.KA_DPD
         then (10 : Int)
         else (⟨10, 0, 0, 0, 0, 0, 0⟩ : keepalive_info).last_dpd) ∧
     (⟨10, 0, 0, 0, 0, 0, 0⟩ : keepalive_info).last_dpd
       ≤ (keepalive_action ⟨10, 0, 0, 0, 0, 0, 0⟩ 10 0).2.1.last_dpd ∧
     ((keepalive_action ⟨10, 0, 0, 0, 0, 0, 0⟩ 10 0).1 = KAAction.KA_DPD →
      (keepalive_action (keepalive_action ⟨10, 0, 0, 0, 0, 0, 0⟩ 10 0).2.1
          100 0).1 = KAAction.KA_DPD →
      (10 : Int) + Int.tdiv (⟨10, 0, 0, 0, 0, 0, 0⟩ : keepalive_info).dpd 2
        ≤ 100)) :=
  ⟨by decide, no_probe_flood ⟨10, 0, 0, 0, 0, 0, 0⟩ 10 0 100 0 (by decide)⟩

theorem tighten_eq_min (t due now : Int) :
    tighten t due now = min t ((due - now) * 1000) := by
  unfold tighten
  split_ifs <;> omega

/-- C5 counterexample: the claim's "`>= 0` for every caller-supplied
timeout value" fails for a negative input. With all intervals disabled,
both entry points leave a caller-supplied `timeout = -1` untouched, so
the value after the call is negative. -/
theorem timeout_tightened_counterexample :
    (keepalive_action ⟨0, 0, 0, 0, 0, 0, 0⟩ 0 (-1)).2.2 < 0 ∧
    (ka_stalled_action ⟨0, 0, 0, 0, 0, 0, 0⟩ 0 (-1)).2 < 0 := by
  decide

/-- C5 (amended): for every keepalive state, time, and *non-negative*
caller-supplied timeout, both `keepalive_action` and `ka_stalled_action`
leave the timeout non-negative and never above its input value — it is
only ever tightened (each adjustment is a running minimum against a
non-negative future-deadline distance), never loosened. (For a negative
input the value is still never loosened, but stays negative when no
deadline tightens it.) -/
theorem timeout_tightened (ka : keepalive_info) (now timeout : Int)
    (h : 0 ≤ timeout) :
    (0 ≤ (keepalive_action ka now timeout).2.2 ∧
      (keepalive_action ka now timeout).2.2 ≤ timeout) ∧
    (0 ≤ (ka_stalled_action ka now timeout).2 ∧
      (ka_stalled_action ka now timeout).2 ≤ timeout) := by
  unfold keepalive_action ka_stalled_action
  simp only [tighten_eq_min]
  split_ifs <;> simp only [] <;> omega

/-- C5 witness: the amended bounds evaluated at a concrete state with
all three deadlines armed and the input timeout `1000000`. -/
theorem timeout_tightened_witness :
    (0 : Int) ≤ 1000000 ∧
    ((0 ≤ (keepalive_action ⟨10, 7, 30, 0, 0, 0, 0⟩ 3 1000000).2.2 ∧
      (keepalive_action ⟨10, 7, 30, 0, 0, 0, 0⟩ 3 1000000).2.2 ≤ 1000000) ∧
     (0 ≤ (ka_stalled_action ⟨10, 7, 30, 0, 0, 0, 0⟩ 3 1000000).2 ∧
      (ka_stalled_action ⟨10, 7, 30, 0, 0, 0, 0⟩ 3 1000000).2 ≤ 1000000)) :=
  ⟨by decide, timeout_tightened ⟨10, 7, 30, 0, 0, 0, 0⟩ 3 1000000 (by decide)⟩

theorem stoppedRet_neg (ret : Int) : stoppedRet ret < 0 := by
  unfold stoppedRet
  split_ifs <;> omega

theorem runMainloop_cases (envs : List IterEnv) :
    ∀ ret ek r, runMainloop ret envs = some (ek, r) →
      (ek = ExitKind.paused ∧ r = 0) ∨ (ek = ExitKind.stopped ∧ r < 0) := by
  induction envs with
  | nil =>
    intro ret ek r h
    simp [runMainloop] at h
  | cons e rest ih =>
    intro ret ek r h
    unfold runMainloop at h
    split_ifs at h <;>
      first
        | (right
           simp only [Option.some.injEq, Prod.mk.injEq] at h
           obtain ⟨rfl, hr⟩ := h
           exact ⟨rfl, hr ▸ stoppedRet_neg _⟩)
        | (left
           simp only [Option.some.injEq, Prod.mk.injEq] at h
           exact ⟨h.1.symm, h.2.symm⟩)
        | exact ih _ ek r h

/-- C6: whenever `openconnect_mainloop` returns, it returns `0` exactly
on the pause path, and every `quit_reason` (STOPPED) path returns a
negative value — the driver's negative code when one was reported,
otherwise `-EIO` (via `stoppedRet`). -/
theorem mainloop_return_codes (quit0 : Bool) (envs : List IterEnv)
    (ek : ExitKind) (r : Int)
    (h : openconnect_mainloop quit0 envs = some (ek, r)) :
    (r = 0 ↔ ek = ExitKind.paused) ∧ (ek = ExitKind.stopped → r < 0) := by
  have key : (ek = ExitKind.paused ∧ r = 0) ∨ (ek = ExitKind.stopped ∧ r < 0) := by
    unfold openconnect_mainloop at h
    split_ifs at h
    · right
      simp only [Option.some.injEq, Prod.mk.injEq] at h
      obtain ⟨rfl, hr⟩ := h
      exact ⟨rfl, hr ▸ stoppedRet_neg 0⟩
    · exact runMainloop_cases envs 0 ek r h
  rcases key with ⟨rfl, rfl⟩ | ⟨rfl, hneg⟩
  · exact ⟨by simp, fun hh => ExitKind.noConfusion hh⟩
  · exact ⟨⟨fun h0 => by omega, fun hpq => ExitKind.noConfusion hpq⟩,
      fun _ => hneg⟩

/-- C6 witness: a pause iteration (returns `(paused, 0)`) checked
against the theorem. -/
theorem mainloop_return_codes_witness :
    openconnect_mainloop false [⟨false, 0, false, 3, false, false, false, true⟩]
      = some (ExitKind.paused, 0) ∧
    (((0 : Int) = 0 ↔ ExitKind.paused = ExitKind.paused) ∧
      (ExitKind.paused = ExitKind.stopped → (0 : Int) < 0)) :=
  ⟨by decide,
   mainloop_return_codes false [⟨false, 0, false, 3, false, false, false, true⟩]
     ExitKind.paused 0 (by decide)⟩

/-- A `dtls_try_handshake` outcome in which the handshake attempt is
torn down (`new_dtls_ssl` cleared), as happens when the handshake fails
or times out. -/
def tryHSFail (s : DtlsState) : DtlsState :=
  { s with new_dtls_ssl := false }

/-- C9 counterexample: with a handshake in flight that
`dtls_try_handshake` tears down, an elapsed retry period and a connected
SSL socket, the iteration performs `dtls_try_handshake` (the spec's step
2) first and `connect_dtls_socket` (the spec's step 1) second — the
claimed order (step 1 before step 2) does not hold. -/
theorem dtls_order_counterexample :
    (dtlsPrologue tryHSFail id ⟨false, true, 0, 1, true⟩ 10).1
      = [DtlsEvent.tryHandshake, DtlsEvent.connectAttempt] ∧
    ¬ stepOneFirst (dtlsPrologue tryHSFail id ⟨false, true, 0, 1, true⟩ 10).1 := by
  unfold stepOneFirst
  constructor
  · decide
  · decide

/-- C9 (amended): the per-iteration order is the reverse of the claim:
advancing an in-flight handshake (`dtls_try_handshake`, spec step 2)
runs first, and the fresh-attempt check (`connect_dtls_socket`, spec
step 1) runs after it, reading the flags `dtls_try_handshake` updated:
whenever both actions occur in one iteration, `tryHandshake` strictly
precedes `connectAttempt` in the event list. -/
theorem dtls_order (tryHS conn : DtlsState → DtlsState) (s : DtlsState)
    (now : Int)
    (h1 : DtlsEvent.tryHandshake ∈ (dtlsPrologue tryHS conn s now).1)
    (h2 : DtlsEvent.connectAttempt ∈ (dtlsPrologue tryHS conn s now).1) :
    (dtlsPrologue tryHS conn s now).1.indexOf DtlsEvent.tryHandshake <
      (dtlsPrologue tryHS conn s now).1.indexOf DtlsEvent.connectAttempt := by
  simp only [dtlsPrologue] at h1 h2 ⊢
  split_ifs at h1 h2 ⊢ <;> simp_all

/-- C9 witness: the amended ordering evaluated on the iteration of the
counterexample, where both actions occur. -/
theorem dtls_order_witness :
    (DtlsEvent.tryHandshake ∈ (dtlsPrologue tryHSFail id ⟨false, true, 0, 1, true⟩ 10).1 ∧
     DtlsEvent.connectAttempt ∈ (dtlsPrologue tryHSFail id ⟨false, true, 0, 1, true⟩ 10).1) ∧
    (dtlsPrologue tryHSFail id ⟨false, true, 0, 1, true⟩ 10).1.indexOf
        DtlsEvent.tryHandshake <
      (dtlsPrologue tryHSFail id ⟨false, true, 0, 1, true⟩ 10).1.indexOf
        DtlsEvent.connectAttempt :=
  ⟨⟨by decide, by decide⟩,
   dtls_order tryHSFail id ⟨false, true, 0, 1, true⟩ 10 (by decide) (by decide)⟩

end Mainloop
